import Mathlib

/-!
Shallow embedding of the Controle-Financeiro backend core
(src/backend/app: models.py, schemas.py, auth.py, dashboard.py,
transacoes.py, cartoes.py).

Monetary amounts (`float` in the source, "decimal" in the spec) are
modelled as `ℚ`; Python `int` as `Int`.  The relational store is a
record of lists; SQL aggregate queries are modelled by filter/map/sum
with SQL's NULL-on-empty-set behaviour made explicit (`sqlSum`,
`pyOrZero`).  Externals (bcrypt, python-jose, the `str`/`int`
builtins) are modelled by explicit Lean functions, documented at
their definitions.
-/

namespace ControleFinanceiro

/-- A calendar date, as stored in `Transacao.data` (Python `datetime.date`).
`func.extract('month', d)` / `('year', d)` read the `month` / `year` fields. -/
structure CalDate where
  year : Int
  month : Int
  day : Int
  deriving Repr, DecidableEq

/-- models.User: id, unique email, hashed password, optional salary (default 0.0). -/
structure User where
  id : Int
  email : String
  hashed_password : String
  salario : Option ℚ
  deriving Repr, DecidableEq

/-- models.Transacao: a transaction row owned by `user_id`. -/
structure Transacao where
  id : Int
  user_id : Int
  tipo : String
  valor : ℚ
  categoria : Option String
  descricao : Option String
  data : CalDate
  deriving Repr, DecidableEq

/-- models.CartaoFatura: a credit-card invoice row owned by `user_id`,
with its own stored reference month/year and a paid flag. -/
structure CartaoFatura where
  id : Int
  user_id : Int
  instituicao : String
  valor : ℚ
  mes : Int
  ano : Int
  pago : Bool
  deriving Repr, DecidableEq

/-- The relational store (the three tables of models.py). -/
structure Store where
  users : List User
  transacoes : List Transacao
  cartoes : List CartaoFatura
  deriving Repr, DecidableEq

/-- SQL `SELECT SUM(...)`: NULL (`none`) on an empty row set, otherwise the sum.
This is the value `session.exec(select(func.sum(...)).where(...)).first()` yields. -/
def sqlSum (l : List ℚ) : Option ℚ :=
  if l.isEmpty then none else some l.sum

/-- Python `x or 0.0` applied to an optional number: `None` and falsy `0.0`
both collapse to `0.0`. -/
def pyOrZero (o : Option ℚ) : ℚ :=
  match o with
  | none => 0
  | some v => if v == 0 then 0 else v

/-- schemas.DashboardData: the five aggregate figures returned by the dashboard. -/
structure DashboardData where
  total_receitas : ℚ
  total_gastos : ℚ
  total_dividas_abertas : ℚ
  saldo_atual : ℚ
  placar_dividas : ℚ
  deriving Repr, DecidableEq

/-- dashboard.get_dashboard_data with the period given explicitly
(`mes`, `ano`; the `date.today()` defaulting branch is outside the model).
Three aggregate queries scoped to `current_user.id`, then the arithmetic
of dashboard.py lines 56-66. -/
def get_dashboard_data (current_user : User) (mes ano : Int) (s : Store) : DashboardData :=
  let soma_receitas_transacoes := pyOrZero (sqlSum (((s.transacoes.filter
    (fun t => t.user_id == current_user.id && t.tipo == "receita"
      && t.data.month == mes && t.data.year == ano))).map Transacao.valor))
  let soma_gastos_transacoes := pyOrZero (sqlSum (((s.transacoes.filter
    (fun t => t.user_id == current_user.id && t.tipo == "gasto"
      && t.data.month == mes && t.data.year == ano))).map Transacao.valor))
  let soma_dividas := pyOrZero (sqlSum (((s.cartoes.filter
    (fun c => c.user_id == current_user.id && c.pago == false
      && c.mes == mes && c.ano == ano))).map CartaoFatura.valor))
  let total_receitas := pyOrZero current_user.salario + soma_receitas_transacoes
  let total_gastos := soma_gastos_transacoes
  let total_dividas_abertas := soma_dividas
  let saldo_atual := total_receitas - total_gastos
  let placar_dividas := saldo_atual - total_dividas_abertas
  { total_receitas := total_receitas
    total_gastos := total_gastos
    total_dividas_abertas := total_dividas_abertas
    saldo_atual := saldo_atual
    placar_dividas := placar_dividas }

/-- The spec's period-scoped income-transaction sum for a user
("sum of the user's income transactions dated in that month and year"). -/
def incomeSum (uid mes ano : Int) (s : Store) : ℚ :=
  ((s.transacoes.filter (fun t => t.user_id == uid && t.tipo == "receita"
    && t.data.month == mes && t.data.year == ano)).map Transacao.valor).sum

/-- The spec's period-scoped expense-transaction sum for a user. -/
def expenseSum (uid mes ano : Int) (s : Store) : ℚ :=
  ((s.transacoes.filter (fun t => t.user_id == uid && t.tipo == "gasto"
    && t.data.month == mes && t.data.year == ano)).map Transacao.valor).sum

/-- The spec's sum of unpaid invoices whose stored reference month/year equal the period. -/
def unpaidSum (uid mes ano : Int) (s : Store) : ℚ :=
  ((s.cartoes.filter (fun c => c.user_id == uid && c.pago == false
    && c.mes == mes && c.ano == ano)).map CartaoFatura.valor).sum

/-- The spec's salary baseline: the stored salary, 0 when absent. -/
def specSalary (u : User) : ℚ := u.salario.getD 0

/-! ## Python `str` / `int` builtins

`login` issues tokens with `{"sub": str(user.id)}` and `get_current_user`
converts the claim back with `int(user_id)`.  Both builtins are external to
the repository; they are modelled as canonical decimal printing and parsing. -/

/-- Little-endian decimal digits of a natural number; the fuel argument makes
the recursion structural so the kernel can evaluate it. -/
def natDigitsFuel : Nat → Nat → List Nat
  | 0, _ => []
  | fuel + 1, n => if n = 0 then [] else (n % 10) :: natDigitsFuel fuel (n / 10)

/-- The character of a decimal digit `d < 10`. -/
def digitChar10 (d : Nat) : Char := Char.ofNat (48 + d)

/-- Canonical decimal character string of a natural number (`str` on a `Nat`). -/
def pyStrNatChars (n : Nat) : List Char :=
  if n = 0 then ['0'] else ((natDigitsFuel (n + 1) n).map digitChar10).reverse

/-- Modelled from the spec: Python's builtin `str()` on an integer — the
canonical decimal representation, with a leading minus sign when negative. -/
def pyStr (i : Int) : String :=
  match i with
  | .ofNat n => ⟨pyStrNatChars n⟩
  | .negSucc n => ⟨'-' :: pyStrNatChars (n + 1)⟩

/-- Value of a little-endian base-10 digit list. -/
def ofDigitsNat : List Nat → Nat
  | [] => 0
  | d :: ds => d + 10 * ofDigitsNat ds

/-- Parse a nonempty all-digit character list as a natural number. -/
def parseNatChars (cs : List Char) : Option Nat :=
  if cs.isEmpty || !(cs.all Char.isDigit) then none
  else some (ofDigitsNat ((cs.map (fun c => c.toNat - 48)).reverse))

/-- Modelled from the spec: Python's builtin `int()` on a string; `none`
stands for the `ValueError` raised on a non-numeric string. -/
def pyIntParse (s : String) : Option Int :=
  match s.data with
  | [] => none
  | c :: cs =>
    if c = '-' then (parseNatChars cs).map (fun n => -(n : Int))
    else (parseNatChars (c :: cs)).map (fun n => (n : Int))

/-! ## Token Service (python-jose) and the Auth Gateway -/

/-- The decoded JWT claim set this backend uses: the optional `sub` claim and
the optional `exp` claim (epoch seconds). -/
structure TokenPayload where
  sub : Option String
  exp : Option Int
  deriving Repr, DecidableEq

/-- Modelled from the spec: a JWT as seen through python-jose — either a
well-formed token signed with some key, or a malformed string. -/
inductive Token where
  | signed (payload : TokenPayload) (key : String)
  | malformed (raw : String)
  deriving Repr, DecidableEq

/-- auth.ACCESS_TOKEN_EXPIRE_MINUTES = 60 * 24 (one day). -/
def ACCESS_TOKEN_EXPIRE_MINUTES : Int := 60 * 24

/-- auth.create_access_token on the login data `{"sub": sub}`: copy the data,
set `exp = now + expires_delta` (default `ACCESS_TOKEN_EXPIRE_MINUTES`), sign
with the process secret. Time in epoch seconds, `expires_delta` in seconds. -/
def create_access_token (sub : String) (expires_delta : Option Int) (now : Int)
    (key : String) : Token :=
  Token.signed
    { sub := some sub
      exp := some (now + expires_delta.getD (ACCESS_TOKEN_EXPIRE_MINUTES * 60)) }
    key

/-- Modelled from the spec: jose.jwt.decode — raises JWTError (`.error`) on a
malformed token, a signature/key mismatch, or an `exp` claim strictly in the
past; otherwise returns the payload. -/
def jwt_decode (t : Token) (key : String) (now : Int) : Except Unit TokenPayload :=
  match t with
  | .malformed _ => .error ()
  | .signed p k =>
    if k != key then .error ()
    else
      match p.exp with
      | some e => if e < now then .error () else .ok p
      | none => .ok p

/-- Outcome of auth.get_current_user: the resolved user, the 401
`credentials_exception` (the spec's AuthError), or the uncaught `ValueError`
raised by `int(user_id)` outside the try/except block. -/
inductive AuthOutcome where
  | ok (u : User)
  | authError
  | valueError
  deriving Repr, DecidableEq

/-- auth.get_current_user: decode the token (JWTError ↦ `authError`), read the
`sub` claim (absent ↦ `authError`), convert with `int(...)` — this call sits
outside the try/except, so a non-numeric subject is an uncaught `ValueError`,
not the 401 — then fetch the user by primary key (absent ↦ `authError`). -/
def get_current_user (token : Token) (key : String) (now : Int) (s : Store) : AuthOutcome :=
  match jwt_decode token key now with
  | .error _ => .authError
  | .ok payload =>
    match payload.sub with
    | none => .authError
    | some user_id =>
      match pyIntParse user_id with
      | none => .valueError
      | some uid =>
        match s.users.find? (fun u => u.id == uid) with
        | none => .authError
        | some u => .ok u

/-! ## Registration -/

/-- Typed errors raised by register (HTTP 400 / 409 / 422 in the source). -/
inductive RegErr where
  | validationError
  | conflictError
  deriving Repr, DecidableEq

/-- Modelled from the spec: the external bcrypt Password Hasher
(`pwd_context.hash`); an injective tagged stand-in, since no claim here
depends on the digest's internal structure. -/
def hash_password (password : String) : String := "$2b$12$" ++ password

/-- schemas.UserCreate: email, optional salary (default 0.0), password. -/
structure UserCreate where
  email : String
  salario : Option ℚ
  senha : String
  deriving Repr, DecidableEq

/-- The Pydantic length constraints on schemas.UserCreate.senha
(`min_length=4, max_length=72`, counted in characters); `none` models the
422 validation error. Email-format validation (EmailStr) belongs to the
external validation collaborator and is not modelled. -/
def validateUserCreate (email : String) (salario : Option ℚ) (senha : String) :
    Option UserCreate :=
  if senha.length < 4 || 72 < senha.length then none
  else some { email := email, salario := salario, senha := senha }

/-- Autoincremented primary key for a new user row. -/
def nextUserId (s : Store) : Int := (s.users.map User.id).foldr max 0 + 1

/-- auth.register. The session reads the store twice: `queryStore` is the state
the pre-query sees, `commitStore` the state at commit time — equal for a
sequential call (`register_seq`), different to express the concurrent
registration race of spec §4.3/§5. Steps, in source order: password-length
check (>72 characters ↦ ValidationError), pre-query on the email (hit ↦
ConflictError), hash and insert, commit under the storage-layer unique
constraint on email (violation ↦ IntegrityError, rolled back to ConflictError). -/
def register (payload : UserCreate) (queryStore commitStore : Store) :
    Except RegErr User × Store :=
  if 72 < payload.senha.length then
    (.error .validationError, commitStore)
  else if queryStore.users.any (fun u => u.email == payload.email) then
    (.error .conflictError, commitStore)
  else
    let u : User :=
      { id := nextUserId commitStore
        email := payload.email
        hashed_password := hash_password payload.senha
        salario := payload.salario }
    if commitStore.users.any (fun x => x.email == payload.email) then
      (.error .conflictError, commitStore)
    else
      (.ok u, { commitStore with users := commitStore.users ++ [u] })

/-- auth.register on a single, sequentially consistent session. -/
def register_seq (payload : UserCreate) (s : Store) : Except RegErr User × Store :=
  register payload s s

/-- The register route as exposed: Pydantic validation of the raw input
(schemas.UserCreate), then auth.register on the validated payload. -/
def register_route (email : String) (salario : Option ℚ) (senha : String)
    (s : Store) : Except RegErr User × Store :=
  match validateUserCreate email salario senha with
  | none => (.error .validationError, s)
  | some payload => register payload s s

/-! ## Transaction and invoice CRUD (transacoes.py, cartoes.py) -/

/-- Ownership-check errors (HTTP 404 / 403 in the source). -/
inductive CrudErr where
  | notFound
  | forbidden
  deriving Repr, DecidableEq

/-- schemas.Transacao used as a request payload: the client may supply
`id` and `user_id`, both optional. -/
structure TransacaoPayload where
  id : Option Int
  user_id : Option Int
  tipo : String
  valor : ℚ
  categoria : Option String
  descricao : Option String
  data : CalDate
  deriving Repr, DecidableEq

/-- schemas.CartaoFatura used as a request payload: the client may supply
`id` and `user_id`, both optional; `pago` defaults to false. -/
structure CartaoFaturaPayload where
  id : Option Int
  user_id : Option Int
  instituicao : String
  valor : ℚ
  mes : Int
  ano : Int
  pago : Bool
  deriving Repr, DecidableEq

/-- Autoincremented primary key for a new transaction row. -/
def nextTransacaoId (s : Store) : Int := (s.transacoes.map Transacao.id).foldr max 0 + 1

/-- Autoincremented primary key for a new invoice row. -/
def nextCartaoId (s : Store) : Int := (s.cartoes.map CartaoFatura.id).foldr max 0 + 1

/-- transacoes.criar_transacao: builds the row from the payload's data fields
only — `user_id` is taken from the authenticated user and `id` from the
database autoincrement; the payload's `id`/`user_id` are never read. -/
def criar_transacao (payload : TransacaoPayload) (current_user : User) (s : Store) :
    Transacao × Store :=
  let t : Transacao :=
    { id := nextTransacaoId s
      user_id := current_user.id
      tipo := payload.tipo
      valor := payload.valor
      categoria := payload.categoria
      descricao := payload.descricao
      data := payload.data }
  (t, { s with transacoes := s.transacoes ++ [t] })

/-- cartoes.adicionar_fatura: like `criar_transacao`, the stored row's
`user_id` comes from the authenticated user, the `id` from the autoincrement. -/
def adicionar_fatura (payload : CartaoFaturaPayload) (current_user : User) (s : Store) :
    CartaoFatura × Store :=
  let c : CartaoFatura :=
    { id := nextCartaoId s
      user_id := current_user.id
      instituicao := payload.instituicao
      valor := payload.valor
      mes := payload.mes
      ano := payload.ano
      pago := payload.pago }
  (c, { s with cartoes := s.cartoes ++ [c] })

/-- transacoes.atualizar_transacao: fetch by primary key (404 when absent),
ownership check (403), then full-field replacement of the mutable fields. -/
def atualizar_transacao (transacao_id : Int) (payload : TransacaoPayload)
    (current_user : User) (s : Store) : Except CrudErr Transacao × Store :=
  match s.transacoes.find? (fun t => t.id == transacao_id) with
  | none => (.error .notFound, s)
  | some t =>
    if t.user_id != current_user.id then (.error .forbidden, s)
    else
      let t2 : Transacao :=
        { t with
          tipo := payload.tipo
          valor := payload.valor
          categoria := payload.categoria
          descricao := payload.descricao
          data := payload.data }
      (.ok t2,
        { s with transacoes := s.transacoes.map (fun x => if x.id == transacao_id then t2 else x) })

/-- transacoes.deletar_transacao: fetch by primary key (404 when absent),
ownership check (403), then physical deletion of the row. -/
def deletar_transacao (transacao_id : Int) (current_user : User) (s : Store) :
    Except CrudErr Unit × Store :=
  match s.transacoes.find? (fun t => t.id == transacao_id) with
  | none => (.error .notFound, s)
  | some t =>
    if t.user_id != current_user.id then (.error .forbidden, s)
    else (.ok (), { s with transacoes := s.transacoes.filter (fun x => !(x.id == transacao_id)) })

/-- cartoes.atualizar_fatura: fetch by primary key (404 when absent),
ownership check (403), then full-field replacement of the mutable fields. -/
def atualizar_fatura (cartao_id : Int) (payload : CartaoFaturaPayload)
    (current_user : User) (s : Store) : Except CrudErr CartaoFatura × Store :=
  match s.cartoes.find? (fun c => c.id == cartao_id) with
  | none => (.error .notFound, s)
  | some c =>
    if c.user_id != current_user.id then (.error .forbidden, s)
    else
      let c2 : CartaoFatura :=
        { c with
          instituicao := payload.instituicao
          valor := payload.valor
          mes := payload.mes
          ano := payload.ano
          pago := payload.pago }
      (.ok c2,
        { s with cartoes := s.cartoes.map (fun x => if x.id == cartao_id then c2 else x) })

/-- cartoes.deletar_fatura: fetch by primary key (404 when absent),
ownership check (403), then physical deletion of the row. -/
def deletar_fatura (cartao_id : Int) (current_user : User) (s : Store) :
    Except CrudErr Unit × Store :=
  match s.cartoes.find? (fun c => c.id == cartao_id) with
  | none => (.error .notFound, s)
  | some c =>
    if c.user_id != current_user.id then (.error .forbidden, s)
    else (.ok (), { s with cartoes := s.cartoes.filter (fun x => !(x.id == cartao_id)) })

/-! ## Helper lemmas -/

theorem pyOrZero_eq_getD (o : Option ℚ) : pyOrZero o = o.getD 0 := by
  cases o with
  | none => rfl
  | some v =>
    simp only [pyOrZero, Option.getD_some]
    by_cases h : v = 0
    · simp [h]
    · simp [h]

theorem pyOrZero_sqlSum (l : List ℚ) : pyOrZero (sqlSum l) = l.sum := by
  rw [pyOrZero_eq_getD, sqlSum]
  by_cases h : l.isEmpty
  · simp [h, List.isEmpty_iff.mp h]
  · simp [h]

theorem natDigitsFuel_lt_ten :
    ∀ (fuel n : Nat), ∀ d ∈ natDigitsFuel fuel n, d < 10 := by
  intro fuel
  induction fuel with
  | zero => intro n d hd; simp [natDigitsFuel] at hd
  | succ f ih =>
    intro n d hd
    by_cases h : n = 0
    · simp [natDigitsFuel, h] at hd
    · simp only [natDigitsFuel, if_neg h, List.mem_cons] at hd
      rcases hd with hd | hd
      · subst hd; exact Nat.mod_lt _ (by norm_num)
      · exact ih _ _ hd

theorem ofDigitsNat_natDigitsFuel :
    ∀ (fuel n : Nat), n < fuel → ofDigitsNat (natDigitsFuel fuel n) = n := by
  intro fuel
  induction fuel with
  | zero => intro n h; omega
  | succ f ih =>
    intro n h
    by_cases h0 : n = 0
    · simp [natDigitsFuel, h0, ofDigitsNat]
    · have hdiv : n / 10 < f := by
        have h1 : n / 10 < n := Nat.div_lt_self (Nat.pos_of_ne_zero h0) (by norm_num)
        omega
      simp only [natDigitsFuel, if_neg h0, ofDigitsNat]
      rw [ih _ hdiv]
      omega

theorem digitChar10_toNat (d : Nat) (hd : d < 10) : (digitChar10 d).toNat = 48 + d := by
  interval_cases d <;> decide

theorem digitChar10_isDigit (d : Nat) (hd : d < 10) : (digitChar10 d).isDigit = true := by
  interval_cases d <;> decide

theorem pyStrNatChars_all_digit (n : Nat) :
    ∀ c ∈ pyStrNatChars n, c.isDigit = true := by
  intro c hc
  by_cases h : n = 0
  · subst h
    have h0 : pyStrNatChars 0 = ['0'] := rfl
    rw [h0, List.mem_singleton] at hc
    subst hc; decide
  · simp only [pyStrNatChars, if_neg h, List.mem_reverse, List.mem_map] at hc
    obtain ⟨d, hd, rfl⟩ := hc
    exact digitChar10_isDigit d (natDigitsFuel_lt_ten _ _ d hd)

theorem pyStrNatChars_ne_nil (n : Nat) : pyStrNatChars n ≠ [] := by
  by_cases h : n = 0
  · subst h; simp [pyStrNatChars]
  · simp [pyStrNatChars, if_neg h, natDigitsFuel, h]

theorem map_decode_digitChar10 (L : List Nat) (hL : ∀ d ∈ L, d < 10) :
    L.map (fun d => (digitChar10 d).toNat - 48) = L := by
  induction L with
  | nil => rfl
  | cons a as ih =>
    simp only [List.map_cons]
    rw [digitChar10_toNat a (hL a (by simp))]
    have h1 : 48 + a - 48 = a := by omega
    rw [h1, ih (fun d hd => hL d (by simp [hd]))]

theorem parseNatChars_pyStrNatChars (n : Nat) :
    parseNatChars (pyStrNatChars n) = some n := by
  have hall : (pyStrNatChars n).all Char.isDigit = true := by
    rw [List.all_eq_true]
    exact pyStrNatChars_all_digit n
  have hne : (pyStrNatChars n).isEmpty = false := by
    rw [List.isEmpty_eq_false]
    exact pyStrNatChars_ne_nil n
  unfold parseNatChars
  rw [hne, hall]
  simp only [Bool.not_true, Bool.or_false, if_neg (by simp : ¬(false = true))]
  congr 1
  by_cases h : n = 0
  · subst h; decide
  · simp only [pyStrNatChars, if_neg h]
    rw [List.map_reverse, List.reverse_reverse, List.map_map]
    have hmap : (natDigitsFuel (n + 1) n).map ((fun c => c.toNat - 48) ∘ digitChar10)
        = natDigitsFuel (n + 1) n := by
      have := map_decode_digitChar10 (natDigitsFuel (n + 1) n)
        (fun d hd => natDigitsFuel_lt_ten _ _ d hd)
      simpa [Function.comp] using this
    rw [hmap]
    exact ofDigitsNat_natDigitsFuel (n + 1) n (Nat.lt_succ_self n)

theorem pyIntParse_pyStr (i : Int) : pyIntParse (pyStr i) = some i := by
  cases i with
  | ofNat n =>
    obtain ⟨c, cs, hcons⟩ : ∃ c cs, pyStrNatChars n = c :: cs := by
      cases hh : pyStrNatChars n with
      | nil => exact absurd hh (pyStrNatChars_ne_nil n)
      | cons c cs => exact ⟨c, cs, rfl⟩
    have hdig : c.isDigit = true :=
      pyStrNatChars_all_digit n c (by rw [hcons]; simp)
    have hnm : ¬(c = '-') := by
      intro hcm; subst hcm; exact absurd hdig (by decide)
    have hstr : pyStr (Int.ofNat n) = ⟨c :: cs⟩ := by
      show (⟨pyStrNatChars n⟩ : String) = ⟨c :: cs⟩
      rw [hcons]
    rw [hstr]
    show (if c = '-' then (parseNatChars cs).map (fun k => -(k : Int))
      else (parseNatChars (c :: cs)).map (fun k => (k : Int))) = some (Int.ofNat n)
    rw [if_neg hnm, ← hcons, parseNatChars_pyStrNatChars n]
    rfl
  | negSucc n =>
    show (if ('-' : Char) = '-' then
        (parseNatChars (pyStrNatChars (n + 1))).map (fun k => -(k : Int))
      else (parseNatChars ('-' :: pyStrNatChars (n + 1))).map (fun k => (k : Int)))
      = some (Int.negSucc n)
    rw [if_pos rfl, parseNatChars_pyStrNatChars (n + 1)]
    show some (-((n + 1 : ℕ) : Int)) = some (Int.negSucc n)
    congr 1

theorem get_dashboard_data_eq (u : User) (mes ano : Int) (s : Store) :
    get_dashboard_data u mes ano s =
      { total_receitas := specSalary u + incomeSum u.id mes ano s
        total_gastos := expenseSum u.id mes ano s
        total_dividas_abertas := unpaidSum u.id mes ano s
        saldo_atual := specSalary u + incomeSum u.id mes ano s - expenseSum u.id mes ano s
        placar_dividas := specSalary u + incomeSum u.id mes ano s - expenseSum u.id mes ano s
          - unpaidSum u.id mes ano s } := by
  unfold get_dashboard_data incomeSum expenseSum unpaidSum specSalary
  simp only [pyOrZero_sqlSum]
  simp only [pyOrZero_eq_getD]

theorem find_in_middle {α : Type} (p : α → Bool) (l1 l2 : List α) (c : α)
    (h1 : ∀ x ∈ l1, p x = false) (hc : p c = true) :
    (l1 ++ c :: l2).find? p = some c := by
  induction l1 with
  | nil =>
    simp only [List.nil_append]
    exact List.find?_cons_of_pos _ hc
  | cons a as ih =>
    simp only [List.cons_append]
    rw [List.find?_cons_of_neg _ (by simp [h1 a (by simp)])]
    exact ih (fun x hx => h1 x (by simp [hx]))

theorem map_update_skip (cid : Int) (c2 : CartaoFatura) (l : List CartaoFatura)
    (h : ∀ x ∈ l, x.id ≠ cid) :
    l.map (fun x => if x.id == cid then c2 else x) = l := by
  induction l with
  | nil => rfl
  | cons a as ih =>
    simp only [List.map_cons]
    rw [if_neg (by simp [h a (by simp)]), ih (fun x hx => h x (by simp [hx]))]

/-! ## Claims -/

/-- C1: for every user and period (month, year), the dashboard summary
returns total_income = salary baseline + the period's income-transaction sum,
total_expense = the period's expense-transaction sum, unpaid_invoices = the
sum of unpaid invoices whose stored reference month/year equal the period,
current_balance = total_income − total_expense, and debt_scoreboard =
current_balance − unpaid_invoices; in particular the March-2024 scenario
(salary 3000, one income of 500, one expense of 200, one unpaid invoice of
800) yields (3500, 200, 800, 3300, 2500). -/
theorem C1_dashboard_summary :
    (∀ (u : User) (mes ano : Int) (s : Store),
      get_dashboard_data u mes ano s =
        { total_receitas := specSalary u + incomeSum u.id mes ano s
          total_gastos := expenseSum u.id mes ano s
          total_dividas_abertas := unpaidSum u.id mes ano s
          saldo_atual := specSalary u + incomeSum u.id mes ano s - expenseSum u.id mes ano s
          placar_dividas := specSalary u + incomeSum u.id mes ano s
            - expenseSum u.id mes ano s - unpaidSum u.id mes ano s }) ∧
    get_dashboard_data
      { id := 1, email := "ana@example.com", hashed_password := "hp", salario := some 3000 }
      3 2024
      { users := [{ id := 1, email := "ana@example.com", hashed_password := "hp",
                    salario := some 3000 }]
        transacoes :=
          [{ id := 1, user_id := 1, tipo := "receita", valor := 500, categoria := none,
             descricao := none, data := { year := 2024, month := 3, day := 10 } },
           { id := 2, user_id := 1, tipo := "gasto", valor := 200, categoria := none,
             descricao := none, data := { year := 2024, month := 3, day := 15 } }]
        cartoes :=
          [{ id := 1, user_id := 1, instituicao := "Nubank", valor := 800, mes := 3,
             ano := 2024, pago := false }] } =
      { total_receitas := 3500, total_gastos := 200, total_dividas_abertas := 800,
        saldo_atual := 3300, placar_dividas := 2500 } := by
  refine ⟨fun u mes ano s => get_dashboard_data_eq u mes ano s, ?_⟩
  rw [get_dashboard_data_eq]
  norm_num [incomeSum, expenseSum, unpaidSum, specSalary, List.filter_cons,
    Bool.and_eq_true, beq_iff_eq]
  norm_num [eq_false (by decide : ¬("gasto" = "receita")),
    eq_false (by decide : ¬("receita" = "gasto"))]

/-- C7: for a user and period with no matching transactions and no matching
unpaid invoices, the dashboard returns total_expense = 0, unpaid_invoices = 0,
total_income = the salary baseline (0 when absent), current_balance =
total_income, debt_scoreboard = total_income; empty sums are 0, not null. -/
theorem C7_dashboard_empty_period (u : User) (mes ano : Int) (s : Store)
    (ht : ∀ t ∈ s.transacoes,
      ¬(t.user_id = u.id ∧ t.data.month = mes ∧ t.data.year = ano))
    (hc : ∀ c ∈ s.cartoes,
      ¬(c.user_id = u.id ∧ c.pago = false ∧ c.mes = mes ∧ c.ano = ano)) :
    get_dashboard_data u mes ano s =
      { total_receitas := specSalary u, total_gastos := 0, total_dividas_abertas := 0,
        saldo_atual := specSalary u, placar_dividas := specSalary u } := by
  have h1 : incomeSum u.id mes ano s = 0 := by
    unfold incomeSum
    have : s.transacoes.filter (fun t => t.user_id == u.id && t.tipo == "receita"
        && t.data.month == mes && t.data.year == ano) = [] := by
      rw [List.filter_eq_nil_iff]
      intro t htm
      simp only [Bool.and_eq_true, beq_iff_eq]
      rintro ⟨⟨⟨hu, htip⟩, hm⟩, hy⟩
      exact ht t htm ⟨hu, hm, hy⟩
    rw [this]; rfl
  have h2 : expenseSum u.id mes ano s = 0 := by
    unfold expenseSum
    have : s.transacoes.filter (fun t => t.user_id == u.id && t.tipo == "gasto"
        && t.data.month == mes && t.data.year == ano) = [] := by
      rw [List.filter_eq_nil_iff]
      intro t htm
      simp only [Bool.and_eq_true, beq_iff_eq]
      rintro ⟨⟨⟨hu, htip⟩, hm⟩, hy⟩
      exact ht t htm ⟨hu, hm, hy⟩
    rw [this]; rfl
  have h3 : unpaidSum u.id mes ano s = 0 := by
    unfold unpaidSum
    have : s.cartoes.filter (fun c => c.user_id == u.id && c.pago == false
        && c.mes == mes && c.ano == ano) = [] := by
      rw [List.filter_eq_nil_iff]
      intro c hcm
      simp only [Bool.and_eq_true, beq_iff_eq]
      rintro ⟨⟨⟨hu, hp⟩, hm⟩, hy⟩
      exact hc c hcm ⟨hu, hp, hm, hy⟩
    rw [this]; rfl
  rw [get_dashboard_data_eq, h1, h2, h3]
  simp

/-- C7 witness: a salary-less user and a store whose only rows belong to a
different user produce the all-zero summary. -/
theorem C7_dashboard_empty_period_witness :
    get_dashboard_data { id := 2, email := "b@example.com", hashed_password := "hp", salario := none }
      5 2024
      { users := [{ id := 2, email := "b@example.com", hashed_password := "hp", salario := none }]
        transacoes :=
          [{ id := 1, user_id := 1, tipo := "receita", valor := 500, categoria := none,
             descricao := none, data := { year := 2024, month := 5, day := 10 } }]
        cartoes :=
          [{ id := 1, user_id := 2, instituicao := "X", valor := 80, mes := 4,
             ano := 2024, pago := false }] } =
      { total_receitas := 0, total_gastos := 0, total_dividas_abertas := 0,
        saldo_atual := 0, placar_dividas := 0 } := by
  exact C7_dashboard_empty_period _ 5 2024 _ (by decide) (by decide)

/-- C8: updating an unpaid invoice that the dashboard counts for a period so
that only its paid flag becomes true makes a subsequent dashboard call for
the same period return an unpaid-invoice sum reduced by exactly that
invoice's amount, with total income and total expense unchanged. -/
theorem C8_paying_invoice_updates_dashboard
    (u : User) (mes ano : Int) (s : Store) (cid : Int) (c : CartaoFatura)
    (payload : CartaoFaturaPayload) (l1 l2 : List CartaoFatura)
    (hsplit : s.cartoes = l1 ++ c :: l2)
    (hcid : c.id = cid)
    (hl1 : ∀ x ∈ l1, x.id ≠ cid) (hl2 : ∀ x ∈ l2, x.id ≠ cid)
    (howner : c.user_id = u.id)
    (hunpaid : c.pago = false)
    (hmes : c.mes = mes) (hano : c.ano = ano)
    (hp1 : payload.instituicao = c.instituicao) (hp2 : payload.valor = c.valor)
    (hp3 : payload.mes = c.mes) (hp4 : payload.ano = c.ano)
    (hp5 : payload.pago = true) :
    (get_dashboard_data u mes ano (atualizar_fatura cid payload u s).2).total_dividas_abertas
        = (get_dashboard_data u mes ano s).total_dividas_abertas - c.valor
    ∧ (get_dashboard_data u mes ano (atualizar_fatura cid payload u s).2).total_receitas
        = (get_dashboard_data u mes ano s).total_receitas
    ∧ (get_dashboard_data u mes ano (atualizar_fatura cid payload u s).2).total_gastos
        = (get_dashboard_data u mes ano s).total_gastos := by
  have hfind : s.cartoes.find? (fun x => x.id == cid) = some c := by
    rw [hsplit]
    apply find_in_middle
    · intro x hx; simp [hl1 x hx]
    · simp [hcid]
  have hresult : (atualizar_fatura cid payload u s).2
      = { s with cartoes := l1 ++ ({ c with user_id := u.id, pago := true } : CartaoFatura) :: l2 } := by
    unfold atualizar_fatura
    rw [hfind]
    simp only [howner, bne_self_eq_false, Bool.false_eq_true, if_false]
    rw [hsplit, List.map_append, List.map_cons]
    rw [map_update_skip cid _ l1 hl1, map_update_skip cid _ l2 hl2]
    rw [if_pos (by simp [hcid])]
    rw [hp1, hp2, hp3, hp4, hp5]
  rw [hresult]
  rw [get_dashboard_data_eq, get_dashboard_data_eq]
  have hinc : incomeSum u.id mes ano
      { s with cartoes := l1 ++ ({ c with user_id := u.id, pago := true } : CartaoFatura) :: l2 }
      = incomeSum u.id mes ano s := rfl
  have hexp : expenseSum u.id mes ano
      { s with cartoes := l1 ++ ({ c with user_id := u.id, pago := true } : CartaoFatura) :: l2 }
      = expenseSum u.id mes ano s := rfl
  have hdiv : unpaidSum u.id mes ano
      { s with cartoes := l1 ++ ({ c with user_id := u.id, pago := true } : CartaoFatura) :: l2 }
      = unpaidSum u.id mes ano s - c.valor := by
    unfold unpaidSum
    show (((l1 ++ ({ c with user_id := u.id, pago := true } : CartaoFatura) :: l2).filter _).map _).sum
      = ((s.cartoes.filter _).map _).sum - c.valor
    rw [hsplit]
    simp only [List.filter_append, List.filter_cons, List.map_append, List.sum_append]
    rw [if_neg (by simp), if_pos (by simp [howner, hunpaid, hmes, hano])]
    simp only [List.map_cons, List.sum_cons]
    ring
  rw [hinc, hexp, hdiv]
  exact ⟨rfl, rfl, rfl⟩

/-- C8 witness: a one-invoice store; paying the invoice drops the unpaid sum
from 100 to 0 and leaves income and expenses unchanged. -/
theorem C8_paying_invoice_updates_dashboard_witness :
    (get_dashboard_data { id := 1, email := "a@example.com", hashed_password := "hp", salario := some 0 }
        3 2024
        (atualizar_fatura 5
          { id := none, user_id := none, instituicao := "N", valor := 100, mes := 3,
            ano := 2024, pago := true }
          { id := 1, email := "a@example.com", hashed_password := "hp", salario := some 0 }
          { users := [{ id := 1, email := "a@example.com", hashed_password := "hp", salario := some 0 }]
            transacoes := []
            cartoes := [{ id := 5, user_id := 1, instituicao := "N", valor := 100, mes := 3,
                          ano := 2024, pago := false }] }).2).total_dividas_abertas
      = (get_dashboard_data { id := 1, email := "a@example.com", hashed_password := "hp", salario := some 0 }
          3 2024
          { users := [{ id := 1, email := "a@example.com", hashed_password := "hp", salario := some 0 }]
            transacoes := []
            cartoes := [{ id := 5, user_id := 1, instituicao := "N", valor := 100, mes := 3,
                          ano := 2024, pago := false }] }).total_dividas_abertas - 100 := by
  exact (C8_paying_invoice_updates_dashboard _ 3 2024 _ 5
    { id := 5, user_id := 1, instituicao := "N", valor := 100, mes := 3, ano := 2024, pago := false }
    _ [] [] rfl rfl (by simp) (by simp) rfl rfl rfl rfl rfl rfl rfl rfl rfl).1

/-- C2 counterexample: a validly signed, unexpired token whose subject claim
`"abc"` is present but not parsable as an integer makes get_current_user end
in the uncaught `ValueError` of `int(user_id)` — not in the 401 AuthError the
claim requires for that failure case. -/
theorem C2_counterexample_nonnumeric_subject :
    get_current_user
      (Token.signed { sub := some "abc", exp := some 100 } "secret") "secret" 0
      { users := [{ id := 1, email := "a@example.com", hashed_password := "hp", salario := some 0 }]
        transacoes := []
        cartoes := [] }
      = AuthOutcome.valueError
    ∧ AuthOutcome.valueError ≠ AuthOutcome.authError := by
  exact ⟨rfl, by decide⟩

/-- C2 (amended): get_current_user raises AuthError exactly when the token
fails to decode (malformed, bad signature, or expired), when the subject
claim is absent, or when the subject parses to an id with no matching user;
but when a decodable token's subject is present and NOT parsable as an
integer, the call ends in an uncaught ValueError, not AuthError; and on a
decodable token whose subject resolves to an existing user it returns that
user, whose id equals the subject. -/
theorem C2_get_current_user_cases (t : Token) (key : String) (now : Int) (s : Store) :
    ((jwt_decode t key now = .error ()) → get_current_user t key now s = .authError)
    ∧ (∀ p, jwt_decode t key now = .ok p → p.sub = none →
        get_current_user t key now s = .authError)
    ∧ (∀ p ss, jwt_decode t key now = .ok p → p.sub = some ss → pyIntParse ss = none →
        get_current_user t key now s = .valueError)
    ∧ (∀ p ss i, jwt_decode t key now = .ok p → p.sub = some ss → pyIntParse ss = some i →
        s.users.find? (fun u => u.id == i) = none →
        get_current_user t key now s = .authError)
    ∧ (∀ p ss i u, jwt_decode t key now = .ok p → p.sub = some ss → pyIntParse ss = some i →
        s.users.find? (fun u => u.id == i) = some u →
        get_current_user t key now s = .ok u ∧ u.id = i) := by
  refine ⟨?_, ?_, ?_, ?_, ?_⟩
  · intro h
    simp only [get_current_user, h]
  · intro p hdec hsub
    simp only [get_current_user, hdec, hsub]
  · intro p ss hdec hsub hparse
    simp only [get_current_user, hdec, hsub, hparse]
  · intro p ss i hdec hsub hparse hfind
    simp only [get_current_user, hdec, hsub, hparse, hfind]
  · intro p ss i u hdec hsub hparse hfind
    constructor
    · simp only [get_current_user, hdec, hsub, hparse, hfind]
    · have := List.find?_some hfind
      simpa using this

/-- C2 witness: on a well-signed token for the missing user id 9 the call
returns AuthError, and on a token with the non-numeric subject `"xy"` it
returns the uncaught ValueError. -/
theorem C2_get_current_user_cases_witness :
    get_current_user (Token.signed { sub := some "9", exp := some 100 } "k") "k" 0
      { users := [], transacoes := [], cartoes := [] } = .authError
    ∧ get_current_user (Token.signed { sub := some "xy", exp := some 100 } "k") "k" 0
      { users := [], transacoes := [], cartoes := [] } = .valueError := by
  constructor
  · exact (C2_get_current_user_cases
      (Token.signed { sub := some "9", exp := some 100 } "k") "k" 0
      { users := [], transacoes := [], cartoes := [] }).2.2.2.1
      { sub := some "9", exp := some 100 } "9" 9 rfl rfl (by decide) rfl
  · exact (C2_get_current_user_cases
      (Token.signed { sub := some "xy", exp := some 100 } "k") "k" 0
      { users := [], transacoes := [], cartoes := [] }).2.2.1
      { sub := some "xy", exp := some 100 } "xy" rfl rfl (by decide)

/-- C5: issuing a token whose subject is an existing user's id S via
create_access_token and resolving it with get_current_user strictly before
the expiry returns the user found under id S, whose id equals S. -/
theorem C5_token_roundtrip (S now now2 : Int) (delta : Option Int) (key : String)
    (s : Store) (u : User)
    (hfind : s.users.find? (fun x => x.id == S) = some u)
    (hnow : now2 < now + delta.getD (ACCESS_TOKEN_EXPIRE_MINUTES * 60)) :
    get_current_user (create_access_token (pyStr S) delta now key) key now2 s = .ok u
    ∧ u.id = S := by
  have hdec : jwt_decode (create_access_token (pyStr S) delta now key) key now2
      = .ok { sub := some (pyStr S)
              exp := some (now + delta.getD (ACCESS_TOKEN_EXPIRE_MINUTES * 60)) } := by
    simp only [create_access_token, jwt_decode, bne_self_eq_false, Bool.false_eq_true, if_false]
    rw [if_neg (by omega)]
  constructor
  · simp only [get_current_user, hdec, pyIntParse_pyStr, hfind]
  · have := List.find?_some hfind
    simpa using this

/-- C5 witness: user id 7, token issued at time 0 with the default TTL and
resolved at time 3600. -/
theorem C5_token_roundtrip_witness :
    get_current_user (create_access_token (pyStr 7) none 0 "k") "k" 3600
      { users := [{ id := 7, email := "c@example.com", hashed_password := "hp", salario := none }]
        transacoes := [], cartoes := [] }
      = .ok { id := 7, email := "c@example.com", hashed_password := "hp", salario := none } := by
  exact (C5_token_roundtrip 7 0 3600 none "k"
    { users := [{ id := 7, email := "c@example.com", hashed_password := "hp", salario := none }]
      transacoes := [], cartoes := [] }
    { id := 7, email := "c@example.com", hashed_password := "hp", salario := none }
    (by decide) (by decide)).1

/-- C3: registering an email twice sequentially makes the first call succeed
and the second raise ConflictError with exactly one user row for that email
afterward; and because the duplicate is checked again at commit time, a
registration whose commit-time store already holds the email fails with
ConflictError and leaves the store unchanged even when its pre-query saw no
duplicate — so two registrations of one email never both succeed. -/
theorem C3_register_duplicate_email (e : String) (p1 p2 : UserCreate) (s : Store)
    (he1 : p1.email = e) (he2 : p2.email = e)
    (hlen1 : p1.senha.length ≤ 72) (hlen2 : p2.senha.length ≤ 72)
    (hfresh : ∀ u ∈ s.users, u.email ≠ e) :
    (∃ u : User, register_seq p1 s = (.ok u, { s with users := s.users ++ [u] })
      ∧ u.email = e
      ∧ ((s.users ++ [u]).filter (fun x => x.email == e)).length = 1
      ∧ register_seq p2 { s with users := s.users ++ [u] }
          = (.error .conflictError, { s with users := s.users ++ [u] }))
    ∧ (∀ qs cs : Store, (∃ v ∈ cs.users, v.email = e) →
        register p2 qs cs = (.error .conflictError, cs)) := by
  have hany1 : s.users.any (fun x => x.email == p1.email) = false := by
    rw [List.any_eq_false]
    intro x hx
    simp [he1, hfresh x hx]
  constructor
  · refine ⟨{ id := nextUserId s
              email := p1.email
              hashed_password := hash_password p1.senha
              salario := p1.salario }, ?_, he1, ?_, ?_⟩
    · unfold register_seq register
      rw [if_neg (by omega), if_neg (by simp [hany1]), if_neg (by simp [hany1])]
    · rw [List.filter_append]
      rw [List.filter_eq_nil_iff.mpr (by intro x hx; simp [hfresh x hx])]
      simp [he1]
    · unfold register_seq register
      rw [if_neg (by omega)]
      rw [if_pos (by
        rw [List.any_eq_true]
        refine ⟨{ id := nextUserId s
                  email := p1.email
                  hashed_password := hash_password p1.senha
                  salario := p1.salario }, by simp, by simp [he1, he2]⟩)]
  · intro qs cs hv
    obtain ⟨v, hvmem, hve⟩ := hv
    have hcs : cs.users.any (fun x => x.email == p2.email) = true := by
      rw [List.any_eq_true]
      exact ⟨v, hvmem, by simp [hve, he2]⟩
    unfold register
    rw [if_neg (by omega)]
    by_cases hq : qs.users.any (fun x => x.email == p2.email) = true
    · rw [if_pos hq]
    · rw [if_neg hq, if_pos hcs]

/-- C3 witness: with the second session's commit-time store already holding
`dup@example.com` (the race window), registration fails with ConflictError
and the store is unchanged. -/
theorem C3_register_duplicate_email_witness :
    register { email := "dup@example.com", salario := none, senha := "wxyz" }
      { users := [], transacoes := [], cartoes := [] }
      { users := [{ id := 1, email := "dup@example.com", hashed_password := "hp", salario := none }]
        transacoes := [], cartoes := [] }
      = (.error .conflictError,
        { users := [{ id := 1, email := "dup@example.com", hashed_password := "hp", salario := none }]
          transacoes := [], cartoes := [] }) := by
  exact (C3_register_duplicate_email "dup@example.com"
    { email := "dup@example.com", salario := none, senha := "abcd" }
    { email := "dup@example.com", salario := none, senha := "wxyz" }
    { users := [], transacoes := [], cartoes := [] }
    rfl rfl (by decide) (by decide) (by decide)).2
    { users := [], transacoes := [], cartoes := [] }
    { users := [{ id := 1, email := "dup@example.com", hashed_password := "hp", salario := none }]
      transacoes := [], cartoes := [] }
    ⟨{ id := 1, email := "dup@example.com", hashed_password := "hp", salario := none },
      by simp, rfl⟩

/-- C4 counterexample: a 40-character password of two-byte characters is 80
UTF-8 bytes long — more than 72 bytes — yet registration succeeds (the result
is `.ok`, not ValidationError) and a row IS persisted (the store goes from 0
to 1 user rows), because the source checks `len(senha)` in characters
(40 ≤ 72), refuting the bytes-based claim. -/
theorem C4_counterexample_multibyte_password :
    (String.mk (List.replicate 40 'ç')).utf8ByteSize = 80
    ∧ (∃ u, (register_route "x@example.com" none (String.mk (List.replicate 40 'ç'))
        { users := [], transacoes := [], cartoes := [] }).1 = .ok u)
    ∧ (register_route "x@example.com" none (String.mk (List.replicate 40 'ç'))
        { users := [], transacoes := [], cartoes := [] }).2.users.length = 1 := by
  refine ⟨by decide, ⟨_, rfl⟩, by decide⟩

/-- C4 (amended): for every password longer than 72 CHARACTERS (the unit the
source's `len` check and the schema's max_length actually count — not bytes),
registration raises ValidationError before hashing or any store write, and
the store is unchanged: both in auth.register itself and through the
validated route. -/
theorem C4_register_long_password (payload : UserCreate) (qs cs : Store)
    (email : String) (salario : Option ℚ) (senha : String) (s : Store)
    (hlen : 72 < payload.senha.length) (hlen2 : 72 < senha.length) :
    register payload qs cs = (.error .validationError, cs)
    ∧ register_route email salario senha s = (.error .validationError, s) := by
  constructor
  · unfold register
    rw [if_pos hlen]
  · unfold register_route validateUserCreate
    rw [if_pos (by simp [hlen2])]

/-- C4 witness: a 73-character password is rejected with ValidationError and
the empty store stays empty, both by register and through the route. -/
theorem C4_register_long_password_witness :
    register { email := "y@example.com", salario := none,
               senha := String.mk (List.replicate 73 'a') }
      { users := [], transacoes := [], cartoes := [] }
      { users := [], transacoes := [], cartoes := [] }
      = (.error .validationError, { users := [], transacoes := [], cartoes := [] })
    ∧ register_route "y@example.com" none (String.mk (List.replicate 73 'a'))
      { users := [], transacoes := [], cartoes := [] }
      = (.error .validationError, { users := [], transacoes := [], cartoes := [] }) := by
  exact C4_register_long_password
    { email := "y@example.com", salario := none, senha := String.mk (List.replicate 73 'a') }
    { users := [], transacoes := [], cartoes := [] }
    { users := [], transacoes := [], cartoes := [] }
    "y@example.com" none (String.mk (List.replicate 73 'a'))
    { users := [], transacoes := [], cartoes := [] }
    (by decide) (by decide)

/-- C6: updating or deleting a Transaction or Invoice owned by another user
raises ForbiddenError and leaves the store (hence the entity) unchanged;
when no entity has the id, the operations instead raise NotFoundError, also
without mutating the store. -/
theorem C6_ownership_checks (tid cid : Int) (pt : TransacaoPayload)
    (pc : CartaoFaturaPayload) (u : User) (s : Store) :
    ((s.transacoes.find? (fun t => t.id == tid) = none →
        atualizar_transacao tid pt u s = (.error .notFound, s)
        ∧ deletar_transacao tid u s = (.error .notFound, s))
    ∧ (∀ t, s.transacoes.find? (fun x => x.id == tid) = some t → t.user_id ≠ u.id →
        atualizar_transacao tid pt u s = (.error .forbidden, s)
        ∧ deletar_transacao tid u s = (.error .forbidden, s)))
    ∧ ((s.cartoes.find? (fun c => c.id == cid) = none →
        atualizar_fatura cid pc u s = (.error .notFound, s)
        ∧ deletar_fatura cid u s = (.error .notFound, s))
    ∧ (∀ c, s.cartoes.find? (fun x => x.id == cid) = some c → c.user_id ≠ u.id →
        atualizar_fatura cid pc u s = (.error .forbidden, s)
        ∧ deletar_fatura cid u s = (.error .forbidden, s))) := by
  refine ⟨⟨?_, ?_⟩, ?_, ?_⟩
  · intro h
    exact ⟨by simp only [atualizar_transacao, h], by simp only [deletar_transacao, h]⟩
  · intro t hfind hne
    constructor
    · simp only [atualizar_transacao, hfind]
      rw [if_pos (by simp [hne])]
    · simp only [deletar_transacao, hfind]
      rw [if_pos (by simp [hne])]
  · intro h
    exact ⟨by simp only [atualizar_fatura, h], by simp only [deletar_fatura, h]⟩
  · intro c hfind hne
    constructor
    · simp only [atualizar_fatura, hfind]
      rw [if_pos (by simp [hne])]
    · simp only [deletar_fatura, hfind]
      rw [if_pos (by simp [hne])]

/-- A demo transaction row owned by user 1. -/
def demoTransacao : Transacao :=
  { id := 1, user_id := 1, tipo := "gasto", valor := 5, categoria := none,
    descricao := none, data := { year := 2024, month := 1, day := 1 } }

/-- A demo invoice row owned by user 1. -/
def demoFatura : CartaoFatura :=
  { id := 1, user_id := 1, instituicao := "N", valor := 9, mes := 1, ano := 2024,
    pago := false }

/-- A demo store holding one transaction and one invoice, both of user 1. -/
def demoOwnStore : Store :=
  { users := [], transacoes := [demoTransacao], cartoes := [demoFatura] }

/-- A demo authenticated caller whose id 2 owns nothing in `demoOwnStore`. -/
def demoCaller : User :=
  { id := 2, email := "b@example.com", hashed_password := "hp", salario := none }

/-- A demo update payload for a transaction. -/
def demoTransacaoPayload : TransacaoPayload :=
  { id := none, user_id := none, tipo := "gasto", valor := 5, categoria := none,
    descricao := none, data := { year := 2024, month := 1, day := 1 } }

/-- A demo update payload for an invoice. -/
def demoFaturaPayload : CartaoFaturaPayload :=
  { id := none, user_id := none, instituicao := "N", valor := 9, mes := 1, ano := 2024,
    pago := false }

/-- C6 witness: the caller with id 2 gets ForbiddenError updating user 1's
transaction, and NotFoundError deleting the absent invoice id 99; the store
is returned unchanged both times. -/
theorem C6_ownership_checks_witness :
    atualizar_transacao 1 demoTransacaoPayload demoCaller demoOwnStore
      = (.error .forbidden, demoOwnStore)
    ∧ deletar_fatura 99 demoCaller demoOwnStore = (.error .notFound, demoOwnStore) := by
  constructor
  · exact ((C6_ownership_checks 1 1 demoTransacaoPayload demoFaturaPayload demoCaller
      demoOwnStore).1.2 demoTransacao rfl (by decide)).1
  · exact ((C6_ownership_checks 1 99 demoTransacaoPayload demoFaturaPayload demoCaller
      demoOwnStore).2.1 rfl).2

/-- C9: every created Transaction or Invoice is stored with user_id equal to
the authenticated caller's id, and the create operations are insensitive to
any client-supplied id or user_id in the payload. -/
theorem C9_create_ownership (pt : TransacaoPayload) (pc : CartaoFaturaPayload)
    (u : User) (s : Store) (i1 i2 : Option Int) :
    (criar_transacao pt u s).1.user_id = u.id
    ∧ (adicionar_fatura pc u s).1.user_id = u.id
    ∧ criar_transacao { pt with id := i1, user_id := i2 } u s = criar_transacao pt u s
    ∧ adicionar_fatura { pc with id := i1, user_id := i2 } u s = adicionar_fatura pc u s := by
  exact ⟨rfl, rfl, rfl, rfl⟩

/-- C10: every password shorter than 4 characters is rejected at the schema
boundary (UserCreate min_length=4) with a validation error, and no row is
persisted — the store is returned unchanged. -/
theorem C10_short_password_rejected (email : String) (salario : Option ℚ)
    (senha : String) (s : Store) (hlen : senha.length < 4) :
    register_route email salario senha s = (.error .validationError, s) := by
  unfold register_route validateUserCreate
  rw [if_pos (by simp [hlen])]

/-- C10 witness: the three-character password "abc" is rejected and the empty
store stays empty. -/
theorem C10_short_password_rejected_witness :
    register_route "z@example.com" none "abc"
      { users := [], transacoes := [], cartoes := [] }
      = (.error .validationError, { users := [], transacoes := [], cartoes := [] }) := by
  exact C10_short_password_rejected "z@example.com" none "abc"
    { users := [], transacoes := [], cartoes := [] } (by decide)

end ControleFinanceiro
